import Mathlib

/-!
# CloudGuard — shallow embedding and verification

A shallow embedding of the CloudGuard core (safety/policy engine,
capability-token service, anomaly detector, remediation executor) with
theorems settling the frozen specification claims.

Conventions of the embedding:
* Python floats are idealised as exact rationals (`ℚ`).
* Timestamps (`datetime.utcnow()`) are seconds as `Int`; `timedelta(hours=1)`
  is `3600`.  Functions that read the clock internally take an explicit
  `now` parameter instead.
* Python's banker's rounding (`round(x, n)`) is `pyRound`.
* `math.sqrt`, reached only through `statistics.stdev`, is an external
  numeric primitive; the detector is parametrised by a function
  `sqrtFn : ℚ → ℚ` standing for it (the claims only exercise the
  `std == 0` branch, where `sqrtFn 0 = 0` is the one fact used).
* Stateful code (`SafetyRules._action_history`) is explicit state passing.
* External GCP mutation calls (snapshot insert, instance stop) are traced
  as `ExtCall` values and their outcomes supplied by oracle parameters.
-/

namespace CloudGuard

/-- Python `round` to the nearest integer, ties to even (banker's rounding). -/
def roundHalfEven (q : ℚ) : ℤ :=
  let n := ⌊q⌋
  let frac := q - n
  if frac < 1/2 then n
  else if 1/2 < frac then n + 1
  else if n % 2 = 0 then n else n + 1

/-- Python `round(q, ndigits)` on exact rationals. -/
def pyRound (ndigits : ℕ) (q : ℚ) : ℚ :=
  (roundHalfEven (q * 10 ^ ndigits) : ℚ) / 10 ^ ndigits

/-- Rendering of Python's `f"{q:.0f}"` on exact rationals. -/
def formatFixed0 (q : ℚ) : String :=
  toString (roundHalfEven q)

/-- Rendering of Python's `f"{q:.2f}"` on exact rationals. -/
def formatFixed2 (q : ℚ) : String :=
  let n := roundHalfEven (q * 100)
  let sign := if n < 0 then "-" else ""
  let m := n.natAbs
  let fracPart := m % 100
  let fracStr := if fracPart < 10 then "0" ++ toString fracPart else toString fracPart
  sign ++ toString (m / 100) ++ "." ++ fracStr

/-- Python `str.lower()` (the labels and tags compared are ASCII). -/
def pyLower (s : String) : String := ⟨s.data.map Char.toLower⟩

/-! ## `src/api/safety_rules.py` — SafetyRules -/

/-- Configuration fields of `src/config.py` consumed by `SafetyRules` /
`GCPExecutor`: `BLOCKLIST_TAGS` (already split and stripped),
`CONFIRMATION_THRESHOLD_USD`, `MAX_ACTIONS_PER_HOUR`, `DRY_RUN_MODE`. -/
structure SafetyConfig where
  blocklist_tags : List String
  confirmation_threshold : ℚ
  max_actions_per_hour : ℕ
  dry_run : Bool

/-- The defaults of `src/config.py`:
`BLOCKLIST_TAGS="production,prod,critical"`, threshold `$100`,
`MAX_ACTIONS_PER_HOUR=3`, `DRY_RUN_MODE=false`. -/
def defaultSafetyConfig : SafetyConfig :=
  ⟨["production", "prod", "critical"], 100, 3, false⟩

/-- State of `SafetyRules._action_history`: per-user list of action timestamps
(a `defaultdict(list)`, so absent users read as `[]`). -/
structure SafetyState where
  action_history : String → List Int

/-- A fresh `SafetyRules` instance: empty action history. -/
def emptySafetyState : SafetyState := ⟨fun _ => []⟩

/-- Python `dict.get(k)` on labels represented as key-distinct pair lists. -/
def dictGet (labels : List (String × String)) (k : String) : Option String :=
  (labels.find? (fun kv => kv.1 = k)).map (·.2)

/-- The loop of `SafetyRules.check_blocklist` over the configured tags:
first tag matching a (lower-cased) label key or label value yields its
reason. -/
def checkTagsLoop : List String → List (String × String) → Option String
  | [], _ => none
  | tag :: rest, resource_labels =>
    if (resource_labels.map (fun kv => pyLower kv.1)).contains (pyLower tag) then
      some ("Resource has blocklisted label: " ++ tag)
    else if (resource_labels.map (fun kv => pyLower kv.2)).contains (pyLower tag) then
      some ("Resource has blocklisted label value: " ++ tag)
    else checkTagsLoop rest resource_labels

/-- Lookup `resource_labels.get("env", resource_labels.get("environment", ""))`:
the `env` key, when present, shadows `environment`. -/
def envLabelLookup (resource_labels : List (String × String)) : String :=
  (dictGet resource_labels "env").getD ((dictGet resource_labels "environment").getD "")

/-- Embeds `SafetyRules.check_blocklist`: generic tag scan, then the dedicated
production-environment check.  Returns `(is_blocked, reason)`. -/
def check_blocklist (blocklist_tags : List String)
    (resource_labels : List (String × String)) : Bool × String :=
  match checkTagsLoop blocklist_tags resource_labels with
  | some reason => (true, reason)
  | none =>
    let env_label := envLabelLookup resource_labels
    if pyLower env_label = "production" ∨ pyLower env_label = "prod" then
      (true, "Resource is marked as production environment")
    else
      (false, "")

/-- Embeds `SafetyRules.check_rate_limit`: prune entries older than one hour
(strictly `t > now - 3600` kept), write the pruned list back, block when
the remaining count reaches the configured maximum.
Returns `((is_rate_limited, reason), new_state)`. -/
def check_rate_limit (cfg : SafetyConfig) (st : SafetyState) (now : Int)
    (user_email : String) : (Bool × String) × SafetyState :=
  let pruned := (st.action_history user_email).filter (fun t => now - 3600 < t)
  let st' : SafetyState := ⟨fun u => if u = user_email then pruned else st.action_history u⟩
  let action_count := pruned.length
  if cfg.max_actions_per_hour ≤ action_count then
    ((true, "Rate limit exceeded: " ++ toString action_count ++ "/" ++
      toString cfg.max_actions_per_hour ++ " actions in the last hour"), st')
  else
    ((false, ""), st')

/-- Embeds `SafetyRules.record_action`: append the current timestamp to the
user's history. -/
def record_action (st : SafetyState) (user_email : String) (now : Int) : SafetyState :=
  ⟨fun u => if u = user_email then st.action_history u ++ [now] else st.action_history u⟩

/-- Embeds `SafetyRules.check_high_cost`. -/
def check_high_cost (cfg : SafetyConfig) (estimated_savings : ℚ) : Bool × String :=
  if cfg.confirmation_threshold ≤ estimated_savings then
    (true, "High-cost action: $" ++ formatFixed2 estimated_savings ++ "/month requires confirmation")
  else
    (false, "")

/-- The `details` dict built by `SafetyRules.validate_action`
(conditionally-present keys carried as defaulted fields). -/
structure ValidationDetails where
  dry_run : Bool
  checks_passed : List String
  checks_failed : List (String × String)
  needs_confirmation : Bool
  confirmation_reason : String
  dry_run_mode : Bool

/-- Result of `SafetyRules.validate_action`: the returned triple
`(is_safe, reason, details)` plus the mutated rule state. -/
structure ValidateResult where
  allowed : Bool
  reason : String
  details : ValidationDetails
  state : SafetyState

/-- Embeds `SafetyRules.validate_action`: blocklist, then rate limit (each
short-circuiting), then the advisory high-cost check and dry-run
annotation. -/
def validate_action (cfg : SafetyConfig) (st : SafetyState) (now : Int)
    (_action _resource_id : String) (resource_labels : List (String × String))
    (user_email : String) (estimated_savings : ℚ) : ValidateResult :=
  let d0 : ValidationDetails := ⟨cfg.dry_run, [], [], false, "", false⟩
  let b := check_blocklist cfg.blocklist_tags resource_labels
  if b.1 then
    ⟨false, b.2, { d0 with checks_failed := [("blocklist", b.2)] }, st⟩
  else
    let d1 := { d0 with checks_passed := ["blocklist"] }
    let rl := check_rate_limit cfg st now user_email
    if rl.1.1 then
      ⟨false, rl.1.2, { d1 with checks_failed := [("rate_limit", rl.1.2)] }, rl.2⟩
    else
      let d2 := { d1 with checks_passed := d1.checks_passed ++ ["rate_limit"] }
      let hc := check_high_cost cfg estimated_savings
      let d3 :=
        if hc.1 then
          { d2 with needs_confirmation := true, confirmation_reason := hc.2,
                    checks_passed := d2.checks_passed ++ ["high_cost"] }
        else
          { d2 with checks_passed := d2.checks_passed ++ ["high_cost"] }
      let d4 := if cfg.dry_run then { d3 with dry_run_mode := true } else d3
      ⟨true, "All safety checks passed", d4, rl.2⟩

/-! ## `src/api/gcp_executor.py` — GCPExecutor

External GCP mutation requests are traced as `ExtCall` values; whether a
request succeeds is supplied by oracle parameters (`snapErr` per disk,
`stopErr` for the stop).  `get` requests are reads, not mutations, and are
represented by the `Option InstanceInfo` lookup result. -/

/-- An external mutation request issued to the GCP API:
a snapshot insert for a disk, or an instance stop. -/
inductive ExtCall where
  | snapshot (disk_name : String)
  | stop (instance_name : String)
deriving DecidableEq

/-- The fields of a `compute_v1.Instance` the executor reads: labels,
status, and the attached disks' `source` URLs. -/
structure InstanceInfo where
  labels : List (String × String)
  status : String
  disks : List String

/-- Outcome of an executor operation: the returned `(success, message)`
(the diagnostic `details` dict is not modelled), the external mutation
requests issued, and the safety-rule state after the call. -/
structure ExecResult where
  success : Bool
  message : String
  calls : List ExtCall
  state : SafetyState

/-- Python `source.split("/")` on the character list. -/
def splitSlash : List Char → List (List Char)
  | [] => [[]]
  | c :: rest =>
    let r := splitSlash rest
    if c = '/' then [] :: r
    else
      match r with
      | [] => [[c]]
      | seg :: segs => (c :: seg) :: segs

/-- Python `disk.source.split("/")[-1]`: the last path segment of a disk URL. -/
def lastSegment (s : String) : String :=
  ⟨(splitSlash s.data).getLastD []⟩

/-- Embeds `GCPExecutor.create_snapshot` restricted to a given snapshot name:
dry-run short-circuits before any external request; otherwise one
snapshot request is issued and `snapErr` decides its outcome. -/
def create_snapshot (cfg : SafetyConfig) (snapErr : String → Option String)
    (disk_name snapshot_name : String) : Bool × String × List ExtCall :=
  if cfg.dry_run then
    (true, "DRY RUN: Would create snapshot " ++ snapshot_name, [])
  else
    match snapErr disk_name with
    | none => (true, "Snapshot " ++ snapshot_name ++ " created successfully",
               [ExtCall.snapshot disk_name])
    | some e => (false, "Failed to create snapshot: " ++ e, [ExtCall.snapshot disk_name])

/-- The default snapshot name `f"cloudguard-{disk_name}-{timestamp}"`
built when `snapshot_and_stop` passes no explicit name. -/
def defaultSnapshotName (disk_name timestamp : String) : String :=
  "cloudguard-" ++ disk_name ++ "-" ++ timestamp

/-- Embeds `GCPExecutor.stop_instance`: instance lookup, safety checks,
already-stopped short-circuit, dry-run short-circuit, then the external
stop; `record_action` runs only after a real successful stop. -/
def stop_instance (cfg : SafetyConfig) (instanceLookup : Option InstanceInfo)
    (stopErr : Option String) (st : SafetyState) (now : Int)
    (instance_name _zone user_email : String) : ExecResult :=
  match instanceLookup with
  | none => ⟨false, "Instance not found: " ++ instance_name, [], st⟩
  | some inst =>
    let v := validate_action cfg st now "stop" instance_name inst.labels user_email 0
    if v.allowed = false then
      ⟨false, v.reason, [], v.state⟩
    else if inst.status = "TERMINATED" then
      ⟨true, "Instance is already stopped", [], v.state⟩
    else if cfg.dry_run then
      ⟨true, "DRY RUN: Would stop instance " ++ instance_name, [], v.state⟩
    else
      match stopErr with
      | none =>
        ⟨true, "Instance " ++ instance_name ++ " stopped successfully",
         [ExtCall.stop instance_name], record_action v.state user_email now⟩
      | some e =>
        ⟨false, "Failed to stop instance: " ++ e, [ExtCall.stop instance_name], v.state⟩

/-- The disk loop of `GCPExecutor.snapshot_and_stop`: snapshot each disk
in sequence, aborting on the first failure with a message naming the
failed disk.  Returns `(all_succeeded, failure_message, calls)`. -/
def snapshotDisks (cfg : SafetyConfig) (snapErr : String → Option String)
    (timestamp : String) : List String → Bool × String × List ExtCall
  | [] => (true, "", [])
  | src :: rest =>
    let disk_name := lastSegment src
    let r := create_snapshot cfg snapErr disk_name (defaultSnapshotName disk_name timestamp)
    if r.1 then
      let r2 := snapshotDisks cfg snapErr timestamp rest
      (r2.1, r2.2.1, r.2.2 ++ r2.2.2)
    else
      (false, "Failed to snapshot disk " ++ disk_name ++ ": " ++ r.2.1, r.2.2)

/-- Embeds `GCPExecutor.snapshot_and_stop`: snapshot every attached disk, then
stop the instance, wrapping the stop outcome's message. -/
def snapshot_and_stop (cfg : SafetyConfig) (instanceLookup : Option InstanceInfo)
    (snapErr : String → Option String) (stopErr : Option String)
    (st : SafetyState) (now : Int) (timestamp : String)
    (instance_name zone user_email : String) : ExecResult :=
  match instanceLookup with
  | none => ⟨false, "Instance not found: " ++ instance_name, [], st⟩
  | some inst =>
    let snaps := snapshotDisks cfg snapErr timestamp inst.disks
    if snaps.1 = false then
      ⟨false, snaps.2.1, snaps.2.2, st⟩
    else
      let s := stop_instance cfg instanceLookup stopErr st now instance_name zone user_email
      if s.success then
        ⟨true, "Snapshots created and instance " ++ instance_name ++ " stopped",
         snaps.2.2 ++ s.calls, s.state⟩
      else
        ⟨false, "Snapshots created but failed to stop: " ++ s.message,
         snaps.2.2 ++ s.calls, s.state⟩

/-! ## `src/api/jwt_handler.py` — JWTHandler

The token serialisation and HMAC-SHA256 signature live in the external
PyJWT library, modelled here by its documented contract: `jwt.encode`
attaches to the payload a tag determined by the payload and the secret;
`jwt.decode` first verifies the tag against the presented payload and
secret (mismatch or an unparseable token ⇒ `InvalidTokenError`), then
enforces the `exp` claim (`exp ≤ now` ⇒ `ExpiredSignatureError`), and
only then returns the payload.  The MAC is idealised as tamper-evident.
The `iat`/`exp`/`issued_at` timestamps are seconds as `Int`
(`issued_at` is `now.isoformat()` in the source, carried here as the
same instant). -/

/-- The payload dict built by `JWTHandler.generate_token`. -/
structure TokenPayload where
  iat : Int
  exp : Int
  jti : String
  resource_id : String
  action : String
  project_id : String
  resource_type : String
  estimated_savings : ℚ
  user_email : Option String
  issued_at : Int
deriving DecidableEq

/-- A presented token: either a structurally well-formed payload with an
attached signature tag, or an unparseable string. -/
inductive JwtToken where
  | signed (payload : TokenPayload) (tag : TokenPayload × String)
  | malformed (raw : String)
deriving DecidableEq

/-- PyJWT's two validation failure kinds as re-raised by
`JWTHandler.validate_token`: `jwt.ExpiredSignatureError` and
`jwt.InvalidTokenError`. -/
inductive TokenError where
  | Expired
  | Invalid
deriving DecidableEq

/-- Model of `jwt.encode(payload, secret, algorithm="HS256")`. -/
def jwtEncode (payload : TokenPayload) (secret : String) : JwtToken :=
  JwtToken.signed payload (payload, secret)

/-- Model of `jwt.decode(token, secret, algorithms=["HS256"])`:
signature first, then the `exp` claim. -/
def jwtDecode (t : JwtToken) (secret : String) (now : Int) :
    Except TokenError TokenPayload :=
  match t with
  | JwtToken.malformed _ => Except.error TokenError.Invalid
  | JwtToken.signed p tag =>
    if tag ≠ (p, secret) then Except.error TokenError.Invalid
    else if p.exp ≤ now then Except.error TokenError.Expired
    else Except.ok p

/-- Fields `JWT_SECRET` and `JWT_EXPIRATION_HOURS` from `src/config.py`. -/
structure JwtConfig where
  secret : String
  expiry_hours : Int

/-- Embeds `JWTHandler.generate_token`: payload with `iat = now`,
`exp = now + expiry_hours`, a fresh `jti` (supplied as a parameter), the
custom claims, and the audit `issued_at`; signed with the handler's
secret. -/
def generate_token (cfg : JwtConfig) (now : Int) (jti : String)
    (resource_id action project_id resource_type : String)
    (estimated_savings : ℚ) (user_email : Option String) : JwtToken :=
  jwtEncode
    ⟨now, now + cfg.expiry_hours * 3600, jti, resource_id, action, project_id,
     resource_type, estimated_savings, user_email, now⟩
    cfg.secret

/-- Embeds `JWTHandler.validate_token`: decode with the handler's secret,
re-raising PyJWT's failures unchanged. -/
def validate_token (cfg : JwtConfig) (t : JwtToken) (now : Int) :
    Except TokenError TokenPayload :=
  jwtDecode t cfg.secret now

/-! ## `src/data/baseline_tracker.py` — BaselineTracker -/

/-- One entry of the tracker's `daily_spend` list:
`{date, day_of_week, daily_spend}`. -/
structure SpendSample where
  date : String
  day_of_week : ℕ
  daily_spend : ℚ

/-- The tracker's persisted state `{daily_spend, last_updated}`. -/
structure BaselineState where
  daily_spend : List SpendSample
  last_updated : Option String

/-- Python `statistics.mean` on exact rationals. -/
def listMean (l : List ℚ) : ℚ := l.sum / l.length

/-- The square of `statistics.stdev`: sample variance with an `n − 1`
divisor; `statistics.stdev` itself is `sqrtFn` applied to this. -/
def sampleVariance (l : List ℚ) : ℚ :=
  let m := listMean l
  (l.map (fun x => (x - m) ^ 2)).sum / ((l.length : ℚ) - 1)

/-- Embeds `BaselineTracker._get_anomaly_message`: pure function of the anomaly
flag and the (unrounded) deviation percentage. -/
def anomalyMessage (is_anomaly : Bool) (deviation_percent : ℚ) : String :=
  if is_anomaly = false then "Spending is within normal range"
  else if 200 < deviation_percent then
    "Spending is " ++ formatFixed0 deviation_percent ++ "% above normal - investigate immediately"
  else if 100 < deviation_percent then
    "Spending is " ++ formatFixed0 deviation_percent ++ "% above normal - significant anomaly"
  else if 50 < deviation_percent then
    "Spending is " ++ formatFixed0 deviation_percent ++ "% above normal - moderate anomaly"
  else
    "Spending is " ++ formatFixed0 deviation_percent ++ "% above normal - minor anomaly"

/-- The dict returned by `BaselineTracker.detect_anomaly`; the `current`
and `threshold` keys are absent from the two insufficient-data returns,
hence `Option`. -/
structure AnomalyResult where
  is_anomaly : Bool
  severity : String
  message : String
  baseline : ℚ
  current : Option ℚ
  deviation_percent : ℚ
  z_score : ℚ
  threshold : Option ℚ

/-- Embeds `BaselineTracker.detect_anomaly`.  `sqrtFn` stands for the
`math.sqrt` inside `statistics.stdev`; `threshold` is the configured
`ANOMALY_SENSITIVITY` (default `2.5`). -/
def detect_anomaly (sqrtFn : ℚ → ℚ) (threshold : ℚ) (state : BaselineState)
    (current_spend : ℚ) : AnomalyResult :=
  if state.daily_spend.isEmpty then
    ⟨false, "unknown", "Insufficient baseline data", 0, none, 0, 0, none⟩
  else
    let daily_spends := state.daily_spend.map (·.daily_spend)
    let recent_spends := daily_spends.take 7
    if recent_spends.length < 3 then
      ⟨false, "unknown", "Need at least 3 days of data", 0, none, 0, 0, none⟩
    else
      let avg_spend := listMean recent_spends
      let std_dev := if 1 < recent_spends.length then sqrtFn (sampleVariance recent_spends) else 0
      let z_score :=
        if std_dev = 0 then
          if avg_spend < current_spend then (5 : ℚ) else 0
        else
          (current_spend - avg_spend) / std_dev
      let is_anomaly : Bool := decide (threshold < z_score)
      let deviation_percent :=
        if 0 < avg_spend then (current_spend - avg_spend) / avg_spend * 100 else 0
      let severity :=
        if 3 < z_score then "critical"
        else if 5/2 < z_score then "high"
        else if 2 < z_score then "medium"
        else "low"
      ⟨is_anomaly,
       if is_anomaly then severity else "normal",
       anomalyMessage is_anomaly deviation_percent,
       pyRound 2 avg_spend,
       some (pyRound 2 current_spend),
       pyRound 1 deviation_percent,
       pyRound 2 z_score,
       some threshold⟩

/-! ## Helper lemmas about the policy engine -/

/-- Every reason produced by the generic tag scan has one of the two
`Resource has blocklisted label…` shapes. -/
lemma checkTagsLoop_eq_some_form {tags : List String} {labels : List (String × String)}
    {r : String} (h : checkTagsLoop tags labels = some r) :
    ∃ t, r = "Resource has blocklisted label: " ++ t ∨
         r = "Resource has blocklisted label value: " ++ t := by
  induction tags with
  | nil => simp [checkTagsLoop] at h
  | cons tag rest ih =>
    rw [checkTagsLoop] at h
    split at h
    · exact ⟨tag, Or.inl (by injection h with h; exact h.symm)⟩
    · split at h
      · exact ⟨tag, Or.inr (by injection h with h; exact h.symm)⟩
      · exact ih h

/-- A blocklist hit makes `validate_action` fail immediately with the
blocklist reason and the rule state untouched. -/
lemma validate_action_blocked (cfg : SafetyConfig) (st : SafetyState) (now : Int)
    (a rid : String) (labels : List (String × String)) (user : String) (sav : ℚ)
    (hb : (check_blocklist cfg.blocklist_tags labels).1 = true) :
    (validate_action cfg st now a rid labels user sav).allowed = false ∧
    (validate_action cfg st now a rid labels user sav).reason =
      (check_blocklist cfg.blocklist_tags labels).2 ∧
    (validate_action cfg st now a rid labels user sav).state = st := by
  unfold validate_action
  simp [hb]

/-- With the blocklist passing and the pruned window below the limit,
`validate_action` allows the action and only prunes the actor's window. -/
lemma validate_action_pass (cfg : SafetyConfig) (st : SafetyState) (now : Int)
    (a rid : String) (labels : List (String × String)) (user : String) (sav : ℚ)
    (hb : (check_blocklist cfg.blocklist_tags labels).1 = false)
    (hc : ((st.action_history user).filter (fun t => now - 3600 < t)).length <
      cfg.max_actions_per_hour) :
    (validate_action cfg st now a rid labels user sav).allowed = true ∧
    ∀ u, (validate_action cfg st now a rid labels user sav).state.action_history u =
      if u = user then (st.action_history user).filter (fun t => now - 3600 < t)
      else st.action_history u := by
  unfold validate_action check_rate_limit
  simp [hb, Nat.not_le.mpr hc]

/-- With the blocklist passing and the pruned window at or above the
limit, `validate_action` blocks with the `count/limit` reason. -/
lemma validate_action_rate_blocked (cfg : SafetyConfig) (st : SafetyState) (now : Int)
    (a rid : String) (labels : List (String × String)) (user : String) (sav : ℚ)
    (hb : (check_blocklist cfg.blocklist_tags labels).1 = false)
    (hc : cfg.max_actions_per_hour ≤
      ((st.action_history user).filter (fun t => now - 3600 < t)).length) :
    (validate_action cfg st now a rid labels user sav).allowed = false ∧
    (validate_action cfg st now a rid labels user sav).reason =
      "Rate limit exceeded: " ++
        toString ((st.action_history user).filter (fun t => now - 3600 < t)).length ++ "/" ++
        toString cfg.max_actions_per_hour ++ " actions in the last hour" ∧
    ∀ u, (validate_action cfg st now a rid labels user sav).state.action_history u =
      if u = user then (st.action_history user).filter (fun t => now - 3600 < t)
      else st.action_history u := by
  unfold validate_action check_rate_limit
  simp [hb, hc]

/-- The rule state after any `validate_action` call: per actor, either
untouched or pruned to the trailing hour — never extended. -/
lemma validate_action_history_cases (cfg : SafetyConfig) (st : SafetyState) (now : Int)
    (a rid : String) (labels : List (String × String)) (user : String) (sav : ℚ) (u : String) :
    (validate_action cfg st now a rid labels user sav).state.action_history u =
      st.action_history u ∨
    (validate_action cfg st now a rid labels user sav).state.action_history u =
      (st.action_history u).filter (fun t => now - 3600 < t) := by
  by_cases hb : (check_blocklist cfg.blocklist_tags labels).1 = true
  · exact Or.inl (by rw [(validate_action_blocked cfg st now a rid labels user sav hb).2.2])
  · rw [Bool.not_eq_true] at hb
    by_cases hc : ((st.action_history user).filter (fun t => now - 3600 < t)).length <
        cfg.max_actions_per_hour
    · have h := (validate_action_pass cfg st now a rid labels user sav hb hc).2 u
      by_cases hu : u = user
      · subst hu; rw [h, if_pos rfl]; exact Or.inr rfl
      · rw [h, if_neg hu]; exact Or.inl rfl
    · have h := (validate_action_rate_blocked cfg st now a rid labels user sav hb
        (Nat.not_lt.mp hc)).2.2 u
      by_cases hu : u = user
      · subst hu; rw [h, if_pos rfl]; exact Or.inr rfl
      · rw [h, if_neg hu]; exact Or.inl rfl

/-! ## Claim C6 — production-environment blocklisting -/

/-- C6 counterexample: the claim as stated is false.  The labels
`{"env": "dev", "environment": "production"}` carry the key
`environment` with value `production`, yet with the configured tag list
`["critical"]` the resource is not blocked and `validate_action` allows
the action: the dedicated check reads `env` first, and an `env` key
shadows `environment`. -/
theorem c6_env_shadowing_counterexample :
    (check_blocklist ["critical"] [("env", "dev"), ("environment", "production")]).1 = false ∧
    (validate_action ⟨["critical"], 100, 3, false⟩ emptySafetyState 0 "stop" "vm-1"
      [("env", "dev"), ("environment", "production")] "user@example.com" 0).allowed = true := by
  exact ⟨by decide, by decide⟩

/-- C6 (amended): a resource whose *effective* environment label — the
value under `env`, falling back to `environment` only when no `env` key
exists — is `production` or `prod` case-insensitively is blocked by the
blocklist check, and `validate_action` returns not-allowed with a
blocking reason, regardless of the configured blocklist tag list. -/
theorem c6_effective_env_label_blocked (cfg : SafetyConfig) (st : SafetyState) (now : Int)
    (a rid : String) (labels : List (String × String)) (user : String) (sav : ℚ)
    (henv : pyLower (envLabelLookup labels) = "production" ∨
            pyLower (envLabelLookup labels) = "prod") :
    (check_blocklist cfg.blocklist_tags labels).1 = true ∧
    (validate_action cfg st now a rid labels user sav).allowed = false ∧
    ((validate_action cfg st now a rid labels user sav).reason =
        "Resource is marked as production environment" ∨
     ∃ t, (validate_action cfg st now a rid labels user sav).reason =
            "Resource has blocklisted label: " ++ t ∨
          (validate_action cfg st now a rid labels user sav).reason =
            "Resource has blocklisted label value: " ++ t) := by
  have hb : (check_blocklist cfg.blocklist_tags labels).1 = true := by
    unfold check_blocklist
    cases h : checkTagsLoop cfg.blocklist_tags labels with
    | some r => rfl
    | none => simp [henv]
  refine ⟨hb, (validate_action_blocked cfg st now a rid labels user sav hb).1, ?_⟩
  rw [(validate_action_blocked cfg st now a rid labels user sav hb).2.1]
  unfold check_blocklist
  cases h : checkTagsLoop cfg.blocklist_tags labels with
  | some r => exact Or.inr (checkTagsLoop_eq_some_form h)
  | none => simp [henv]

/-- C6 witness: with an *empty* configured tag list and the single label
`environment=production`, the action is blocked. -/
theorem c6_effective_env_label_blocked_witness :
    (pyLower (envLabelLookup [("environment", "production")]) = "production" ∨
     pyLower (envLabelLookup [("environment", "production")]) = "prod") ∧
    ((check_blocklist ([] : List String) [("environment", "production")]).1 = true ∧
     (validate_action ⟨[], 100, 3, false⟩ emptySafetyState 0 "stop" "vm-1"
        [("environment", "production")] "user@example.com" 0).allowed = false ∧
     ((validate_action ⟨[], 100, 3, false⟩ emptySafetyState 0 "stop" "vm-1"
        [("environment", "production")] "user@example.com" 0).reason =
          "Resource is marked as production environment" ∨
      ∃ t, (validate_action ⟨[], 100, 3, false⟩ emptySafetyState 0 "stop" "vm-1"
              [("environment", "production")] "user@example.com" 0).reason =
            "Resource has blocklisted label: " ++ t ∨
           (validate_action ⟨[], 100, 3, false⟩ emptySafetyState 0 "stop" "vm-1"
              [("environment", "production")] "user@example.com" 0).reason =
            "Resource has blocklisted label value: " ++ t)) :=
  ⟨Or.inl (by decide),
   c6_effective_env_label_blocked ⟨[], 100, 3, false⟩ emptySafetyState 0 "stop" "vm-1"
     [("environment", "production")] "user@example.com" 0 (Or.inl (by decide))⟩

/-! ## Claim C10 — `validate_action` never extends the rate window -/

/-- Harness for C10: `n` consecutive `validate_action` calls with the
same arguments, threading the mutated rule state, collecting each call's
`allowed` verdict. -/
def iterValidate (cfg : SafetyConfig) (now : Int) (a rid : String)
    (labels : List (String × String)) (user : String) (sav : ℚ) :
    ℕ → SafetyState → List Bool × SafetyState
  | 0, st => ([], st)
  | n + 1, st =>
    let r := validate_action cfg st now a rid labels user sav
    let rest := iterValidate cfg now a rid labels user sav n r.state
    (r.allowed :: rest.1, rest.2)

/-- C10: `validate_action` never adds an entry to any actor's rate
window — each per-actor history is left untouched or pruned to the
trailing hour — and consequently, for an actor whose history is empty
and whose labels pass the blocklist, any number of consecutive
`validate_action` calls all return allowed (given a positive configured
hourly maximum). -/
theorem c10_validate_action_never_records :
    (∀ (cfg : SafetyConfig) (st : SafetyState) (now : Int) (a rid : String)
       (labels : List (String × String)) (user : String) (sav : ℚ) (u : String),
      (validate_action cfg st now a rid labels user sav).state.action_history u =
        st.action_history u ∨
      (validate_action cfg st now a rid labels user sav).state.action_history u =
        (st.action_history u).filter (fun t => now - 3600 < t)) ∧
    (∀ (cfg : SafetyConfig) (now : Int) (a rid : String)
       (labels : List (String × String)) (user : String) (sav : ℚ)
       (_ : (check_blocklist cfg.blocklist_tags labels).1 = false)
       (_ : 0 < cfg.max_actions_per_hour)
       (n : ℕ) (st : SafetyState) (_ : st.action_history user = []),
      ∀ b ∈ (iterValidate cfg now a rid labels user sav n st).1, b = true) := by
  constructor
  · exact fun cfg st now a rid labels user sav u =>
      validate_action_history_cases cfg st now a rid labels user sav u
  · intro cfg now a rid labels user sav hb hmax n
    induction n with
    | zero => intro st _ b hbmem; simp [iterValidate] at hbmem
    | succ n ih =>
      intro st hst b hbmem
      have hc : ((st.action_history user).filter (fun t => now - 3600 < t)).length <
          cfg.max_actions_per_hour := by
        rw [hst]; simpa using hmax
      have hp := validate_action_pass cfg st now a rid labels user sav hb hc
      rw [iterValidate] at hbmem
      simp only [List.mem_cons] at hbmem
      rcases hbmem with h | h
      · rw [h, hp.1]
      · refine ih _ ?_ b h
        rw [hp.2 user, if_pos rfl, hst]
        rfl

/-- C10 witness: four consecutive calls under the default configuration
with no labels and an empty history all return allowed. -/
theorem c10_validate_action_never_records_witness :
    ((check_blocklist defaultSafetyConfig.blocklist_tags ([] : List (String × String))).1 = false ∧
     0 < defaultSafetyConfig.max_actions_per_hour ∧
     emptySafetyState.action_history "user@example.com" = []) ∧
    (∀ b ∈ (iterValidate defaultSafetyConfig 0 "stop" "vm-1" [] "user@example.com" 0
        4 emptySafetyState).1, b = true) :=
  ⟨⟨by decide, by decide, rfl⟩,
   c10_validate_action_never_records.2 defaultSafetyConfig 0 "stop" "vm-1" []
     "user@example.com" 0 (by decide) (by decide) 4 emptySafetyState rfl⟩

/-! ## Claim C2 — dry-run completions and the rate window -/

/-- C2 counterexample: the claim as stated is false.  In dry-run mode a
stop that completes as a simulated success leaves the actor's rate
window empty: `stop_instance` returns at the dry-run short-circuit,
before the `record_action` call that only follows a real successful
stop. -/
theorem c2_dry_run_not_recorded_counterexample :
    (stop_instance ⟨["production", "prod", "critical"], 100, 3, true⟩
        (some ⟨[], "RUNNING", []⟩) none emptySafetyState 1000 "vm-1" "us-central1-a"
        "user@example.com").success = true ∧
    (stop_instance ⟨["production", "prod", "critical"], 100, 3, true⟩
        (some ⟨[], "RUNNING", []⟩) none emptySafetyState 1000 "vm-1" "us-central1-a"
        "user@example.com").message = "DRY RUN: Would stop instance vm-1" ∧
    (stop_instance ⟨["production", "prod", "critical"], 100, 3, true⟩
        (some ⟨[], "RUNNING", []⟩) none emptySafetyState 1000 "vm-1" "us-central1-a"
        "user@example.com").state.action_history "user@example.com" = [] := by
  exact ⟨by decide, by decide, by decide⟩

/-- C2 (amended): in dry-run mode a stop action that completes as a
simulated success is *not* recorded into the actor's rate window: no
external call is issued and no actor's history gains an entry (each can
only be pruned), since `record_action` runs only after a real successful
stop. -/
theorem c2_dry_run_makes_no_call_and_no_record (cfg : SafetyConfig)
    (instanceLookup : Option InstanceInfo) (stopErr : Option String)
    (st : SafetyState) (now : Int) (instance_name zone user_email : String)
    (hdry : cfg.dry_run = true) :
    (stop_instance cfg instanceLookup stopErr st now instance_name zone user_email).calls
      = [] ∧
    ∀ u, ((stop_instance cfg instanceLookup stopErr st now instance_name zone
        user_email).state.action_history u).length ≤ (st.action_history u).length := by
  cases instanceLookup with
  | none => exact ⟨rfl, fun u => Nat.le_refl _⟩
  | some inst =>
    have hlen : ∀ u, ((validate_action cfg st now "stop" instance_name inst.labels
        user_email 0).state.action_history u).length ≤ (st.action_history u).length := by
      intro u
      rcases validate_action_history_cases cfg st now "stop" instance_name inst.labels
        user_email 0 u with h | h
      · rw [h]
      · rw [h]; exact List.length_filter_le _ _
    unfold stop_instance
    rcases hv : (validate_action cfg st now "stop" instance_name inst.labels
        user_email 0).allowed with _ | _
    · simp only [hv]
      exact ⟨rfl, fun u => by simpa [hv] using hlen u⟩
    · by_cases hterm : inst.status = "TERMINATED"
      · simp only [hv, hterm]
        exact ⟨rfl, fun u => by simpa [hv, hterm] using hlen u⟩
      · simp only [hv, hterm, hdry]
        exact ⟨rfl, fun u => by simpa [hv, hterm, hdry] using hlen u⟩

/-- C2 witness: a concrete dry-run stop issues no external call and
leaves every history length unchanged. -/
theorem c2_dry_run_makes_no_call_and_no_record_witness :
    ((⟨["production", "prod", "critical"], 100, 3, true⟩ : SafetyConfig).dry_run = true) ∧
    ((stop_instance ⟨["production", "prod", "critical"], 100, 3, true⟩
        (some ⟨[], "RUNNING", []⟩) none emptySafetyState 1000 "vm-1" "us-central1-a"
        "user@example.com").calls = [] ∧
     ∀ u, ((stop_instance ⟨["production", "prod", "critical"], 100, 3, true⟩
        (some ⟨[], "RUNNING", []⟩) none emptySafetyState 1000 "vm-1" "us-central1-a"
        "user@example.com").state.action_history u).length ≤
          (emptySafetyState.action_history u).length) :=
  ⟨rfl,
   c2_dry_run_makes_no_call_and_no_record ⟨["production", "prod", "critical"], 100, 3, true⟩
     (some ⟨[], "RUNNING", []⟩) none emptySafetyState 1000 "vm-1" "us-central1-a"
     "user@example.com" rfl⟩

/-! ## Claim C7 — rate-limit scenario

Harness for the C7 scenario under `defaultSafetyConfig`
(`max_actions_per_hour = 3`): three executed actions — each a
`validate_action` call followed by `record_action` at times `t1 ≤ t2 ≤ t3`
— then a 4th `validate_action` call at `now`, then a further call at
`now'`. -/

/-- C7 harness: first `validate_action` call (empty history, no labels). -/
def c7call1 (user rid : String) (t1 : Int) : ValidateResult :=
  validate_action defaultSafetyConfig emptySafetyState t1 "stop" rid [] user 0

/-- C7 harness: state after the first executed action is recorded. -/
def c7state1 (user rid : String) (t1 : Int) : SafetyState :=
  record_action (c7call1 user rid t1).state user t1

/-- C7 harness: second `validate_action` call. -/
def c7call2 (user rid : String) (t1 t2 : Int) : ValidateResult :=
  validate_action defaultSafetyConfig (c7state1 user rid t1) t2 "stop" rid [] user 0

/-- C7 harness: state after the second executed action is recorded. -/
def c7state2 (user rid : String) (t1 t2 : Int) : SafetyState :=
  record_action (c7call2 user rid t1 t2).state user t2

/-- C7 harness: third `validate_action` call. -/
def c7call3 (user rid : String) (t1 t2 t3 : Int) : ValidateResult :=
  validate_action defaultSafetyConfig (c7state2 user rid t1 t2) t3 "stop" rid [] user 0

/-- C7 harness: state after the third executed action is recorded. -/
def c7state3 (user rid : String) (t1 t2 t3 : Int) : SafetyState :=
  record_action (c7call3 user rid t1 t2 t3).state user t3

/-- C7 harness: the 4th `validate_action` call, at time `now`. -/
def c7call4 (user rid : String) (t1 t2 t3 now : Int) : ValidateResult :=
  validate_action defaultSafetyConfig (c7state3 user rid t1 t2 t3) now "stop" rid [] user 0

/-- C7 harness: a further `validate_action` call at time `now'`, on the
state left by the 4th call. -/
def c7call5 (user rid : String) (t1 t2 t3 now now' : Int) : ValidateResult :=
  validate_action defaultSafetyConfig (c7call4 user rid t1 t2 t3 now).state now' "stop" rid
    [] user 0

/-- C7: with `max_actions_per_hour = 3`, after three executed-and-recorded
actions within the trailing hour the 4th `validate_action` call for the
same actor is refused with the `count/limit` reason, and once time has
advanced past one hour from the earliest recorded action a new call is
allowed again. -/
theorem c7_rate_limit_four_then_recovery (user rid : String) (t1 t2 t3 now now' : Int)
    (h12 : t1 ≤ t2) (h23 : t2 ≤ t3) (h3n : t3 ≤ now)
    (hwin : now - 3600 < t1) (hpast : t1 + 3600 < now') :
    (c7call1 user rid t1).allowed = true ∧
    (c7call2 user rid t1 t2).allowed = true ∧
    (c7call3 user rid t1 t2 t3).allowed = true ∧
    (c7call4 user rid t1 t2 t3 now).allowed = false ∧
    (c7call4 user rid t1 t2 t3 now).reason =
      "Rate limit exceeded: 3/3 actions in the last hour" ∧
    (c7call5 user rid t1 t2 t3 now now').allowed = true := by
  have hb : (check_blocklist defaultSafetyConfig.blocklist_tags
      ([] : List (String × String))).1 = false := by decide
  -- Call 1: empty history.
  have hc1 : ((emptySafetyState.action_history user).filter
      (fun t => t1 - 3600 < t)).length < defaultSafetyConfig.max_actions_per_hour := by
    simp [emptySafetyState, defaultSafetyConfig]
  have hp1 := validate_action_pass defaultSafetyConfig emptySafetyState t1 "stop" rid []
    user 0 hb hc1
  have hs1 : (c7state1 user rid t1).action_history user = [t1] := by
    unfold c7state1 record_action c7call1
    dsimp only
    rw [if_pos rfl, hp1.2 user, if_pos rfl]
    rfl
  -- Call 2: history [t1], still inside the window at t2.
  have k21 : t2 - 3600 < t1 := by omega
  have hf2 : ((c7state1 user rid t1).action_history user).filter
      (fun t => t2 - 3600 < t) = [t1] := by
    rw [hs1]; simp [k21]
  have hc2 : (((c7state1 user rid t1).action_history user).filter
      (fun t => t2 - 3600 < t)).length < defaultSafetyConfig.max_actions_per_hour := by
    rw [hf2]; simp [defaultSafetyConfig]
  have hp2 := validate_action_pass defaultSafetyConfig (c7state1 user rid t1) t2 "stop" rid
    [] user 0 hb hc2
  have hs2 : (c7state2 user rid t1 t2).action_history user = [t1, t2] := by
    unfold c7state2 record_action c7call2
    dsimp only
    rw [if_pos rfl, hp2.2 user, if_pos rfl, hf2]
    rfl
  -- Call 3: history [t1, t2], inside the window at t3.
  have k31 : t3 - 3600 < t1 := by omega
  have k32 : t3 - 3600 < t2 := by omega
  have hf3 : ((c7state2 user rid t1 t2).action_history user).filter
      (fun t => t3 - 3600 < t) = [t1, t2] := by
    rw [hs2]; simp [k31, k32]
  have hc3 : (((c7state2 user rid t1 t2).action_history user).filter
      (fun t => t3 - 3600 < t)).length < defaultSafetyConfig.max_actions_per_hour := by
    rw [hf3]; simp [defaultSafetyConfig]
  have hp3 := validate_action_pass defaultSafetyConfig (c7state2 user rid t1 t2) t3 "stop"
    rid [] user 0 hb hc3
  have hs3 : (c7state3 user rid t1 t2 t3).action_history user = [t1, t2, t3] := by
    unfold c7state3 record_action c7call3
    dsimp only
    rw [if_pos rfl, hp3.2 user, if_pos rfl, hf3]
    rfl
  -- Call 4: history [t1, t2, t3], all three inside the window at `now`.
  have k41 : now - 3600 < t1 := hwin
  have k42 : now - 3600 < t2 := by omega
  have k43 : now - 3600 < t3 := by omega
  have hf4 : ((c7state3 user rid t1 t2 t3).action_history user).filter
      (fun t => now - 3600 < t) = [t1, t2, t3] := by
    rw [hs3]; simp [k41, k42, k43]
  have hc4 : defaultSafetyConfig.max_actions_per_hour ≤
      (((c7state3 user rid t1 t2 t3).action_history user).filter
        (fun t => now - 3600 < t)).length := by
    rw [hf4]; exact Nat.le_refl 3
  have hp4 := validate_action_rate_blocked defaultSafetyConfig (c7state3 user rid t1 t2 t3)
    now "stop" rid [] user 0 hb hc4
  have hreason : (c7call4 user rid t1 t2 t3 now).reason =
      "Rate limit exceeded: 3/3 actions in the last hour" := by
    show (validate_action defaultSafetyConfig (c7state3 user rid t1 t2 t3) now "stop" rid
      [] user 0).reason = _
    rw [hp4.2.1, hf4]
    have hlen3 : [t1, t2, t3].length = 3 := rfl
    rw [hlen3]
    decide
  -- Call 5: t1 has aged out of the window at now'.
  have hs4 : (c7call4 user rid t1 t2 t3 now).state.action_history user = [t1, t2, t3] := by
    show (validate_action defaultSafetyConfig (c7state3 user rid t1 t2 t3) now "stop" rid
      [] user 0).state.action_history user = _
    rw [hp4.2.2 user, if_pos rfl, hf4]
  have k51 : ¬ (now' - 3600 < t1) := by omega
  have hc5 : (((c7call4 user rid t1 t2 t3 now).state.action_history user).filter
      (fun t => now' - 3600 < t)).length < defaultSafetyConfig.max_actions_per_hour := by
    rw [hs4]
    have : ([t1, t2, t3].filter (fun t => now' - 3600 < t)) =
        ([t2, t3].filter (fun t => now' - 3600 < t)) := by
      simp [List.filter, k51]
    rw [this]
    calc ([t2, t3].filter (fun t => now' - 3600 < t)).length
        ≤ [t2, t3].length := List.length_filter_le _ _
      _ < defaultSafetyConfig.max_actions_per_hour := by simp [defaultSafetyConfig]
  have hp5 := validate_action_pass defaultSafetyConfig
    (c7call4 user rid t1 t2 t3 now).state now' "stop" rid [] user 0 hb hc5
  exact ⟨hp1.1, hp2.1, hp3.1, hp4.1, hreason, hp5.1⟩

/-- C7 witness: the scenario at `t1 = 0`, `t2 = 600`, `t3 = 1200`,
`now = 1800`, `now' = 3601`. -/
theorem c7_rate_limit_four_then_recovery_witness :
    ((0 : Int) ≤ 600 ∧ (600 : Int) ≤ 1200 ∧ (1200 : Int) ≤ 1800 ∧
     (1800 : Int) - 3600 < 0 ∧ (0 : Int) + 3600 < 3601) ∧
    ((c7call1 "user@example.com" "vm-1" 0).allowed = true ∧
     (c7call2 "user@example.com" "vm-1" 0 600).allowed = true ∧
     (c7call3 "user@example.com" "vm-1" 0 600 1200).allowed = true ∧
     (c7call4 "user@example.com" "vm-1" 0 600 1200 1800).allowed = false ∧
     (c7call4 "user@example.com" "vm-1" 0 600 1200 1800).reason =
       "Rate limit exceeded: 3/3 actions in the last hour" ∧
     (c7call5 "user@example.com" "vm-1" 0 600 1200 1800 3601).allowed = true) :=
  ⟨⟨by decide, by decide, by decide, by decide, by decide⟩,
   c7_rate_limit_four_then_recovery "user@example.com" "vm-1" 0 600 1200 1800 3601
     (by decide) (by decide) (by decide) (by decide) (by decide)⟩

/-! ## Helper lemmas about the snapshot loop -/

/-- With dry-run off and `snapErr` failing first at `bad`, the disk loop
snapshots the preceding disks, attempts `bad`, and aborts. -/
lemma snapshotDisks_first_failure (cfg : SafetyConfig) (snapErr : String → Option String)
    (ts : String) (hdry : cfg.dry_run = false) (bad : String) (rest : List String)
    (e : String) (hbad : snapErr (lastSegment bad) = some e) :
    ∀ good : List String, (∀ d ∈ good, snapErr (lastSegment d) = none) →
    snapshotDisks cfg snapErr ts (good ++ bad :: rest) =
      (false,
       "Failed to snapshot disk " ++ lastSegment bad ++ ": " ++
         ("Failed to create snapshot: " ++ e),
       good.map (fun d => ExtCall.snapshot (lastSegment d)) ++
         [ExtCall.snapshot (lastSegment bad)]) := by
  intro good
  induction good with
  | nil =>
    intro _
    rw [List.nil_append, snapshotDisks]
    simp [create_snapshot, hdry, hbad]
  | cons g gs ih =>
    intro hgood
    have hg : snapErr (lastSegment g) = none := hgood g (by simp)
    rw [List.cons_append, snapshotDisks]
    simp only [create_snapshot, hdry, Bool.false_eq_true, if_false, hg]
    rw [ih (fun d hd => hgood d (by simp [hd]))]
    simp

/-- With dry-run off and `snapErr` succeeding on every disk, the disk
loop succeeds after snapshotting each disk in order. -/
lemma snapshotDisks_all_ok (cfg : SafetyConfig) (snapErr : String → Option String)
    (ts : String) (hdry : cfg.dry_run = false) :
    ∀ disks : List String, (∀ d ∈ disks, snapErr (lastSegment d) = none) →
    snapshotDisks cfg snapErr ts disks =
      (true, "", disks.map (fun d => ExtCall.snapshot (lastSegment d))) := by
  intro disks
  induction disks with
  | nil => intro _; rfl
  | cons g gs ih =>
    intro hgood
    have hg : snapErr (lastSegment g) = none := hgood g (by simp)
    rw [snapshotDisks]
    simp only [create_snapshot, hdry, Bool.false_eq_true, if_false, hg]
    rw [ih (fun d hd => hgood d (by simp [hd]))]
    simp

/-! ## Claim C8 — snapshot-phase failure handling -/

/-- C8: (1) when the snapshot of some attached disk fails, the
orchestrator returns failure with a message naming that disk, has
attempted exactly the disks up to and including the failed one (no later
disk), never issues the stop call, and leaves the rule state untouched;
(2) with every snapshot succeeding and an otherwise-permitted stop
failing externally, the failure message is the distinct
`Snapshots created but failed to stop` form; (3) the two message forms
never coincide. -/
theorem c8_snapshot_failure_aborts_before_stop :
    (∀ (cfg : SafetyConfig) (snapErr : String → Option String) (stopErr : Option String)
       (st : SafetyState) (now : Int) (ts name zone user : String)
       (labels : List (String × String)) (status : String)
       (good : List String) (bad : String) (rest : List String) (e : String),
      cfg.dry_run = false →
      (∀ d ∈ good, snapErr (lastSegment d) = none) →
      snapErr (lastSegment bad) = some e →
      (snapshot_and_stop cfg (some ⟨labels, status, good ++ bad :: rest⟩) snapErr stopErr
          st now ts name zone user).success = false ∧
      (snapshot_and_stop cfg (some ⟨labels, status, good ++ bad :: rest⟩) snapErr stopErr
          st now ts name zone user).message =
        "Failed to snapshot disk " ++ lastSegment bad ++ ": " ++
          ("Failed to create snapshot: " ++ e) ∧
      (snapshot_and_stop cfg (some ⟨labels, status, good ++ bad :: rest⟩) snapErr stopErr
          st now ts name zone user).calls =
        good.map (fun d => ExtCall.snapshot (lastSegment d)) ++
          [ExtCall.snapshot (lastSegment bad)] ∧
      (∀ i, ExtCall.stop i ∉ (snapshot_and_stop cfg (some ⟨labels, status, good ++ bad :: rest⟩)
          snapErr stopErr st now ts name zone user).calls) ∧
      (snapshot_and_stop cfg (some ⟨labels, status, good ++ bad :: rest⟩) snapErr stopErr
          st now ts name zone user).state = st) ∧
    (∀ (cfg : SafetyConfig) (snapErr : String → Option String) (e2 : String)
       (st : SafetyState) (now : Int) (ts name zone user : String)
       (labels : List (String × String)) (status : String) (disks : List String),
      cfg.dry_run = false →
      (∀ d ∈ disks, snapErr (lastSegment d) = none) →
      status ≠ "TERMINATED" →
      (check_blocklist cfg.blocklist_tags labels).1 = false →
      ((st.action_history user).filter (fun t => now - 3600 < t)).length <
        cfg.max_actions_per_hour →
      (snapshot_and_stop cfg (some ⟨labels, status, disks⟩) snapErr (some e2) st now ts
          name zone user).success = false ∧
      (snapshot_and_stop cfg (some ⟨labels, status, disks⟩) snapErr (some e2) st now ts
          name zone user).message =
        "Snapshots created but failed to stop: " ++ ("Failed to stop instance: " ++ e2)) ∧
    (∀ d m m2 : String,
      "Failed to snapshot disk " ++ d ++ ": " ++ m ≠
      "Snapshots created but failed to stop: " ++ m2) := by
  refine ⟨?_, ?_, ?_⟩
  · intro cfg snapErr stopErr st now ts name zone user labels status good bad rest e
      hdry hgood hbad
    have hloop := snapshotDisks_first_failure cfg snapErr ts hdry bad rest e hbad good hgood
    unfold snapshot_and_stop
    dsimp only
    rw [hloop]
    refine ⟨rfl, rfl, rfl, ?_, rfl⟩
    intro i hi
    simp at hi
  · intro cfg snapErr e2 st now ts name zone user labels status disks hdry hok hterm hb hc
    have hloop := snapshotDisks_all_ok cfg snapErr ts hdry disks hok
    have hv := validate_action_pass cfg st now "stop" name labels user 0 hb hc
    unfold snapshot_and_stop stop_instance
    dsimp only
    rw [hloop]
    simp [hterm, hdry, hv.1]
  · intro d m m2 h
    have h2 := congrArg String.data h
    simp only [String.data_append] at h2
    have h3 := congrArg List.head? h2
    simp at h3

/-- C8 witness: a two-disk instance where the second disk's snapshot
fails, and the all-snapshots-succeed / stop-fails scenario, under the
default configuration. -/
theorem c8_snapshot_failure_aborts_before_stop_witness :
    ((⟨["production", "prod", "critical"], 100, 3, false⟩ : SafetyConfig).dry_run = false ∧
     (∀ d ∈ ["zones/z/disks/disk-1"],
       (fun n => if n = "disk-2" then some "quota exceeded" else none) (lastSegment d) = none) ∧
     (fun n => if n = "disk-2" then some "quota exceeded" else none)
       (lastSegment "zones/z/disks/disk-2") = some "quota exceeded") ∧
    ((snapshot_and_stop ⟨["production", "prod", "critical"], 100, 3, false⟩
        (some ⟨[], "RUNNING", ["zones/z/disks/disk-1"] ++ "zones/z/disks/disk-2" :: []⟩)
        (fun n => if n = "disk-2" then some "quota exceeded" else none) none
        emptySafetyState 0 "ts" "vm-1" "us-central1-a" "user@example.com").success = false ∧
     (snapshot_and_stop ⟨["production", "prod", "critical"], 100, 3, false⟩
        (some ⟨[], "RUNNING", ["zones/z/disks/disk-1"] ++ "zones/z/disks/disk-2" :: []⟩)
        (fun n => if n = "disk-2" then some "quota exceeded" else none) none
        emptySafetyState 0 "ts" "vm-1" "us-central1-a" "user@example.com").message =
       "Failed to snapshot disk " ++ lastSegment "zones/z/disks/disk-2" ++ ": " ++
         ("Failed to create snapshot: " ++ "quota exceeded") ∧
     (snapshot_and_stop ⟨["production", "prod", "critical"], 100, 3, false⟩
        (some ⟨[], "RUNNING", ["zones/z/disks/disk-1"] ++ "zones/z/disks/disk-2" :: []⟩)
        (fun n => if n = "disk-2" then some "quota exceeded" else none) none
        emptySafetyState 0 "ts" "vm-1" "us-central1-a" "user@example.com").calls =
       ["zones/z/disks/disk-1"].map (fun d => ExtCall.snapshot (lastSegment d)) ++
         [ExtCall.snapshot (lastSegment "zones/z/disks/disk-2")] ∧
     (∀ i, ExtCall.stop i ∉ (snapshot_and_stop ⟨["production", "prod", "critical"], 100, 3, false⟩
        (some ⟨[], "RUNNING", ["zones/z/disks/disk-1"] ++ "zones/z/disks/disk-2" :: []⟩)
        (fun n => if n = "disk-2" then some "quota exceeded" else none) none
        emptySafetyState 0 "ts" "vm-1" "us-central1-a" "user@example.com").calls) ∧
     (snapshot_and_stop ⟨["production", "prod", "critical"], 100, 3, false⟩
        (some ⟨[], "RUNNING", ["zones/z/disks/disk-1"] ++ "zones/z/disks/disk-2" :: []⟩)
        (fun n => if n = "disk-2" then some "quota exceeded" else none) none
        emptySafetyState 0 "ts" "vm-1" "us-central1-a" "user@example.com").state =
       emptySafetyState) ∧
    ((snapshot_and_stop ⟨["production", "prod", "critical"], 100, 3, false⟩
        (some ⟨[], "RUNNING", ["zones/z/disks/disk-1"]⟩) (fun _ => none)
        (some "stop timed out") emptySafetyState 0 "ts" "vm-1" "us-central1-a"
        "user@example.com").success = false ∧
     (snapshot_and_stop ⟨["production", "prod", "critical"], 100, 3, false⟩
        (some ⟨[], "RUNNING", ["zones/z/disks/disk-1"]⟩) (fun _ => none)
        (some "stop timed out") emptySafetyState 0 "ts" "vm-1" "us-central1-a"
        "user@example.com").message =
       "Snapshots created but failed to stop: " ++ ("Failed to stop instance: " ++
         "stop timed out")) ∧
    ("Failed to snapshot disk " ++ "disk-2" ++ ": " ++ "Failed to create snapshot: x" ≠
     "Snapshots created but failed to stop: " ++ "Failed to stop instance: y") :=
  ⟨⟨rfl, by decide, by decide⟩,
   c8_snapshot_failure_aborts_before_stop.1 ⟨["production", "prod", "critical"], 100, 3, false⟩
     (fun n => if n = "disk-2" then some "quota exceeded" else none) none emptySafetyState 0
     "ts" "vm-1" "us-central1-a" "user@example.com" [] "RUNNING"
     ["zones/z/disks/disk-1"] "zones/z/disks/disk-2" [] "quota exceeded"
     rfl (by decide) (by decide),
   c8_snapshot_failure_aborts_before_stop.2.1 ⟨["production", "prod", "critical"], 100, 3, false⟩
     (fun _ => none) "stop timed out" emptySafetyState 0 "ts" "vm-1" "us-central1-a"
     "user@example.com" [] "RUNNING" ["zones/z/disks/disk-1"]
     rfl (by decide) (by decide) (by decide) (by decide),
   c8_snapshot_failure_aborts_before_stop.2.2 "disk-2" "Failed to create snapshot: x"
     "Failed to stop instance: y"⟩

/-! ## Claim C1 — policy check versus the snapshot phase -/

/-- C1: evidence of the divergence.  A `snapshot` request on an instance
labelled `environment=production` (which fails the blocking policy
check) still issues the external disk-snapshot mutation for its attached
disk before any policy check runs — `validate_action` is only reached
inside the final `stop_instance` — and only the stop is withheld.  The
claim requires that *no* external mutation be issued. -/
theorem c1_snapshot_mutates_before_policy_check :
    (check_blocklist defaultSafetyConfig.blocklist_tags [("environment", "production")]).1
      = true ∧
    (snapshot_and_stop defaultSafetyConfig
        (some ⟨[("environment", "production")], "RUNNING", ["projects/p/zones/z/disks/disk-1"]⟩)
        (fun _ => none) none emptySafetyState 0 "ts" "vm-1" "us-central1-a"
        "user@example.com").calls = [ExtCall.snapshot "disk-1"] ∧
    (snapshot_and_stop defaultSafetyConfig
        (some ⟨[("environment", "production")], "RUNNING", ["projects/p/zones/z/disks/disk-1"]⟩)
        (fun _ => none) none emptySafetyState 0 "ts" "vm-1" "us-central1-a"
        "user@example.com").success = false ∧
    (snapshot_and_stop defaultSafetyConfig
        (some ⟨[("environment", "production")], "RUNNING", ["projects/p/zones/z/disks/disk-1"]⟩)
        (fun _ => none) none emptySafetyState 0 "ts" "vm-1" "us-central1-a"
        "user@example.com").message =
      "Snapshots created but failed to stop: Resource has blocklisted label value: production" := by
  exact ⟨by decide, by decide, by decide, by decide⟩

/-! ## Claim C3 — issue-then-validate round-trip -/

/-- C3: validating an issued token at any instant before its expiry
succeeds and returns a payload whose `resource_id`, `action`,
`project_id`, `estimated_savings` and `user_email` are identical to the
issued fields. -/
theorem c3_issue_validate_roundtrip (cfg : JwtConfig) (now : Int) (jti : String)
    (resource_id action project_id resource_type : String) (estimated_savings : ℚ)
    (user_email : Option String) (now_v : Int)
    (hfresh : now_v < now + cfg.expiry_hours * 3600) :
    ∃ p : TokenPayload,
      validate_token cfg
        (generate_token cfg now jti resource_id action project_id resource_type
          estimated_savings user_email) now_v = Except.ok p ∧
      p.resource_id = resource_id ∧ p.action = action ∧ p.project_id = project_id ∧
      p.estimated_savings = estimated_savings ∧ p.user_email = user_email := by
  refine ⟨⟨now, now + cfg.expiry_hours * 3600, jti, resource_id, action, project_id,
    resource_type, estimated_savings, user_email, now⟩, ?_, rfl, rfl, rfl, rfl, rfl⟩
  unfold validate_token generate_token jwtEncode jwtDecode
  dsimp only
  rw [if_neg (by simp), if_neg (by omega)]

/-- C3 witness: a concrete grant issued at `now = 0` with a 4-hour TTL,
validated at `now_v = 100`. -/
theorem c3_issue_validate_roundtrip_witness :
    ((100 : Int) < 0 + 4 * 3600) ∧
    (∃ p : TokenPayload,
      validate_token ⟨"server-secret", 4⟩
        (generate_token ⟨"server-secret", 4⟩ 0 "jti-1" "vm-1" "stop" "proj-1" "instance"
          (42 : ℚ) (some "user@example.com")) 100 = Except.ok p ∧
      p.resource_id = "vm-1" ∧ p.action = "stop" ∧ p.project_id = "proj-1" ∧
      p.estimated_savings = (42 : ℚ) ∧ p.user_email = some "user@example.com") :=
  ⟨by omega,
   c3_issue_validate_roundtrip ⟨"server-secret", 4⟩ 0 "jti-1" "vm-1" "stop" "proj-1"
     "instance" (42 : ℚ) (some "user@example.com") 100 (by decide)⟩

/-! ## Claim C4 — the two validation failure kinds -/

/-- C4: token validation distinguishes exactly two failure kinds:
(1) a token whose payload was altered after signing fails with
`Invalid` (never succeeding silently), (2) a malformed token fails with
`Invalid`, and (3) a well-formed, correctly signed token whose expiry
has passed fails with the distinct `Expired` kind. -/
theorem c4_invalid_versus_expired :
    (∀ (cfg : JwtConfig) (issued altered : TokenPayload) (now : Int),
      altered ≠ issued →
      validate_token cfg (JwtToken.signed altered (issued, cfg.secret)) now =
        Except.error TokenError.Invalid) ∧
    (∀ (cfg : JwtConfig) (raw : String) (now : Int),
      validate_token cfg (JwtToken.malformed raw) now = Except.error TokenError.Invalid) ∧
    (∀ (cfg : JwtConfig) (p : TokenPayload) (now : Int),
      p.exp ≤ now →
      validate_token cfg (jwtEncode p cfg.secret) now = Except.error TokenError.Expired) := by
  refine ⟨?_, ?_, ?_⟩
  · intro cfg issued altered now hne
    unfold validate_token jwtDecode
    dsimp only
    rw [if_pos]
    intro h
    exact hne (congrArg Prod.fst h).symm
  · intro cfg raw now
    rfl
  · intro cfg p now hexp
    unfold validate_token jwtEncode jwtDecode
    dsimp only
    rw [if_neg (by simp), if_pos hexp]

/-- C4 witness: a payload with its `resource_id` altered after signing
fails `Invalid`; a malformed token fails `Invalid`; the same payload
correctly signed but past expiry fails `Expired`. -/
theorem c4_invalid_versus_expired_witness :
    ((⟨0, 100, "jti-1", "other-vm", "stop", "proj-1", "instance", 0, none, 0⟩ : TokenPayload) ≠
       (⟨0, 100, "jti-1", "vm-1", "stop", "proj-1", "instance", 0, none, 0⟩ : TokenPayload) ∧
     (100 : Int) ≤ 200) ∧
    validate_token ⟨"server-secret", 4⟩
      (JwtToken.signed ⟨0, 100, "jti-1", "other-vm", "stop", "proj-1", "instance", 0, none, 0⟩
        (⟨0, 100, "jti-1", "vm-1", "stop", "proj-1", "instance", 0, none, 0⟩, "server-secret"))
      50 = Except.error TokenError.Invalid ∧
    validate_token ⟨"server-secret", 4⟩ (JwtToken.malformed "not-a-jwt") 50 =
      Except.error TokenError.Invalid ∧
    validate_token ⟨"server-secret", 4⟩
      (jwtEncode ⟨0, 100, "jti-1", "vm-1", "stop", "proj-1", "instance", 0, none, 0⟩
        "server-secret") 200 = Except.error TokenError.Expired :=
  ⟨⟨by intro h; injection h with h1 h2 h3 h4; exact absurd h4 (by decide), by omega⟩,
   c4_invalid_versus_expired.1 ⟨"server-secret", 4⟩
     ⟨0, 100, "jti-1", "vm-1", "stop", "proj-1", "instance", 0, none, 0⟩
     ⟨0, 100, "jti-1", "other-vm", "stop", "proj-1", "instance", 0, none, 0⟩ 50
     (by intro h; injection h with h1 h2 h3 h4; exact absurd h4 (by decide)),
   c4_invalid_versus_expired.2.1 ⟨"server-secret", 4⟩ "not-a-jwt" 50,
   c4_invalid_versus_expired.2.2 ⟨"server-secret", 4⟩
     ⟨0, 100, "jti-1", "vm-1", "stop", "proj-1", "instance", 0, none, 0⟩ 200 (by decide)⟩

/-! ## Helper lemmas about the anomaly detector -/

/-- The mean of a nonempty constant list is its constant. -/
lemma listMean_const {l : List ℚ} {v : ℚ} (hne : l ≠ []) (h : ∀ x ∈ l, x = v) :
    listMean l = v := by
  have hlen : (l.length : ℚ) ≠ 0 :=
    Nat.cast_ne_zero.mpr (fun h0 => hne (List.length_eq_zero.mp h0))
  rw [listMean, List.sum_eq_card_nsmul l v h, nsmul_eq_mul]
  exact mul_div_cancel_left₀ v hlen

/-- The sample variance of a constant list is `0`. -/
lemma sampleVariance_const {l : List ℚ} {v : ℚ} (hne : l ≠ []) (h : ∀ x ∈ l, x = v) :
    sampleVariance l = 0 := by
  unfold sampleVariance
  show (l.map (fun x => (x - listMean l) ^ 2)).sum / ((l.length : ℚ) - 1) = 0
  have hmap : ∀ y ∈ l.map (fun x => (x - listMean l) ^ 2), y = 0 := by
    intro y hy
    obtain ⟨x, hx, rfl⟩ := List.mem_map.mp hy
    rw [h x hx, listMean_const hne h, sub_self]
    ring
  rw [List.sum_eq_card_nsmul _ 0 hmap]
  simp

/-- Evaluation fact `round(5.0, 2) = 5.0`. -/
lemma pyRound_two_five : pyRound 2 (5 : ℚ) = 5 := by
  norm_num [pyRound, roundHalfEven]

/-- On a baseline whose seven most recent samples are the constant `v`
(and at least three samples exist), `detect_anomaly` takes the
`std == 0` branch: the anomaly flag and z-score depend only on whether
the current spend exceeds `v` (sentinel `5.0`) and on the threshold. -/
lemma detect_anomaly_const_baseline (sqrtFn : ℚ → ℚ) (T : ℚ) (st : BaselineState)
    (v c : ℚ) (hs : sqrtFn 0 = 0) (hlen : 3 ≤ st.daily_spend.length)
    (hconst : ∀ s ∈ st.daily_spend.take 7, s.daily_spend = v) :
    (detect_anomaly sqrtFn T st c).is_anomaly =
      decide (T < if v < c then (5 : ℚ) else 0) ∧
    (detect_anomaly sqrtFn T st c).z_score =
      pyRound 2 (if v < c then (5 : ℚ) else 0) := by
  have hne : st.daily_spend ≠ [] := by
    intro h; rw [h] at hlen; simp at hlen
  have hemp : st.daily_spend.isEmpty = false := by
    cases h : st.daily_spend with
    | nil => exact absurd h hne
    | cons a l => rfl
  have hr3 : 3 ≤ ((st.daily_spend.map (fun s => s.daily_spend)).take 7).length := by
    rw [List.length_take, List.length_map]
    omega
  have hconst' : ∀ x ∈ (st.daily_spend.map (fun s => s.daily_spend)).take 7, x = v := by
    intro x hx
    rw [← List.map_take] at hx
    obtain ⟨s, hsmem, rfl⟩ := List.mem_map.mp hx
    exact hconst s hsmem
  have hrne : (st.daily_spend.map (fun s => s.daily_spend)).take 7 ≠ [] := by
    intro h; rw [h] at hr3; simp at hr3
  have hmean : listMean ((st.daily_spend.map (fun s => s.daily_spend)).take 7) = v :=
    listMean_const hrne hconst'
  have hvar : sampleVariance ((st.daily_spend.map (fun s => s.daily_spend)).take 7) = 0 :=
    sampleVariance_const hrne hconst'
  refine ⟨?_, ?_⟩ <;>
    (unfold detect_anomaly
     rw [hemp]
     simp only [Bool.false_eq_true, if_false]
     rw [if_neg (Nat.not_lt.mpr hr3), if_pos (by omega : 1 <
       ((st.daily_spend.map (fun s => s.daily_spend)).take 7).length), hvar, hs, hmean]
     simp only [if_pos rfl]
     rfl)

/-- A baseline of seven daily samples of `$10.00` each (most recent
first), as in the spec's end-to-end scenario. -/
def baselineSevenTens : BaselineState :=
  ⟨[⟨"2025-01-07", 3, 10⟩, ⟨"2025-01-06", 2, 10⟩, ⟨"2025-01-05", 1, 10⟩,
    ⟨"2025-01-04", 7, 10⟩, ⟨"2025-01-03", 6, 10⟩, ⟨"2025-01-02", 5, 10⟩,
    ⟨"2025-01-01", 4, 10⟩], none⟩

/-! ## Claim C5 — constant baselines and the sentinel z-score -/

/-- C5 counterexample: the claim as stated — quantified over *every*
sensitivity threshold `T` — is false.  At `T = 5`, a constant baseline
of seven samples of `10` and current spend `11 = 10 + 1` (`ε = 1 > 0`)
yield `is_anomaly = false`, because the sentinel z-score `5.0` is not
strictly greater than the threshold.  (`fun _ => 0` stands for
`math.sqrt`, which is only applied to `0` on this input.) -/
theorem c5_threshold_five_counterexample :
    (detect_anomaly (fun _ => 0) 5 baselineSevenTens 11).is_anomaly = false := by
  norm_num [detect_anomaly, listMean, sampleVariance, baselineSevenTens]

/-- C5 (amended): for every sensitivity threshold `T` with `0 ≤ T < 5`
and every baseline of at least three samples whose most-recent up-to-7
samples all equal a constant `v` (so the sample standard deviation is
0), `detect(v)` reports no anomaly and `detect(v + ε)` reports an
anomaly for every `ε > 0`, via the sentinel `z_score = 5.0`.  Outside
that threshold range the sentinel behaviour breaks down: at `T ≥ 5` the
excess case is no anomaly, and at `T < 0` the constant case is one. -/
theorem c5_constant_baseline_sentinel (sqrtFn : ℚ → ℚ) (T v ε : ℚ) (st : BaselineState)
    (hs : sqrtFn 0 = 0) (hT0 : 0 ≤ T) (hT5 : T < 5) (hε : 0 < ε)
    (hlen : 3 ≤ st.daily_spend.length)
    (hconst : ∀ s ∈ st.daily_spend.take 7, s.daily_spend = v) :
    (detect_anomaly sqrtFn T st v).is_anomaly = false ∧
    (detect_anomaly sqrtFn T st (v + ε)).is_anomaly = true ∧
    (detect_anomaly sqrtFn T st (v + ε)).z_score = 5 := by
  have h1 := detect_anomaly_const_baseline sqrtFn T st v v hs hlen hconst
  have h2 := detect_anomaly_const_baseline sqrtFn T st v (v + ε) hs hlen hconst
  have hvlt : v < v + ε := lt_add_of_pos_right v hε
  refine ⟨?_, ?_, ?_⟩
  · rw [h1.1, if_neg (lt_irrefl v)]
    simp [not_lt.mpr hT0]
  · rw [h2.1, if_pos hvlt]
    simp [hT5]
  · rw [h2.2, if_pos hvlt]
    exact pyRound_two_five

/-- C5 witness: `T = 2`, `v = 10`, `ε = 1` on the seven-tens baseline,
with `fun _ => 0` standing for `math.sqrt` (only applied to `0`). -/
theorem c5_constant_baseline_sentinel_witness :
    ((fun _ : ℚ => (0 : ℚ)) 0 = 0 ∧ (0 : ℚ) ≤ 2 ∧ (2 : ℚ) < 5 ∧ (0 : ℚ) < 1 ∧
     3 ≤ baselineSevenTens.daily_spend.length ∧
     (∀ s ∈ baselineSevenTens.daily_spend.take 7, s.daily_spend = 10)) ∧
    ((detect_anomaly (fun _ => 0) 2 baselineSevenTens 10).is_anomaly = false ∧
     (detect_anomaly (fun _ => 0) 2 baselineSevenTens (10 + 1)).is_anomaly = true ∧
     (detect_anomaly (fun _ => 0) 2 baselineSevenTens (10 + 1)).z_score = 5) :=
  ⟨⟨rfl, by norm_num, by norm_num, by norm_num, by norm_num [baselineSevenTens],
    by norm_num [baselineSevenTens]⟩,
   c5_constant_baseline_sentinel (fun _ => 0) 2 10 1 baselineSevenTens rfl
     (by norm_num) (by norm_num) (by norm_num) (by norm_num [baselineSevenTens])
     (by norm_num [baselineSevenTens])⟩

/-! ## Claim C9 — the end-to-end detection scenario -/

/-- C9: with a baseline of seven daily samples of `$10.00`, current
spend `$14.50` and sensitivity threshold `2.5`, detection goes through
the `std = 0` branch: `z_score = 5.0`, `is_anomaly = true`, severity
`critical`, and `deviation_percent = 45.0`.  (`sqrtFn` stands for
`math.sqrt`; only `sqrtFn 0 = 0` is used.) -/
theorem c9_end_to_end_scenario (sqrtFn : ℚ → ℚ) (hs : sqrtFn 0 = 0) :
    (detect_anomaly sqrtFn (5/2) baselineSevenTens (29/2)).z_score = 5 ∧
    (detect_anomaly sqrtFn (5/2) baselineSevenTens (29/2)).is_anomaly = true ∧
    (detect_anomaly sqrtFn (5/2) baselineSevenTens (29/2)).severity = "critical" ∧
    (detect_anomaly sqrtFn (5/2) baselineSevenTens (29/2)).deviation_percent = 45 := by
  have hvar : sampleVariance ([10, 10, 10, 10, 10, 10, 10] : List ℚ) = 0 := by
    norm_num [sampleVariance, listMean]
  refine ⟨?_, ?_, ?_, ?_⟩ <;>
    norm_num [detect_anomaly, listMean, baselineSevenTens, hvar, hs, pyRound, roundHalfEven]

/-- C9 witness: the scenario evaluated with `fun _ => 0` standing for
`math.sqrt` (only applied to `0`). -/
theorem c9_end_to_end_scenario_witness :
    ((fun _ : ℚ => (0 : ℚ)) 0 = 0) ∧
    ((detect_anomaly (fun _ => 0) (5/2) baselineSevenTens (29/2)).z_score = 5 ∧
     (detect_anomaly (fun _ => 0) (5/2) baselineSevenTens (29/2)).is_anomaly = true ∧
     (detect_anomaly (fun _ => 0) (5/2) baselineSevenTens (29/2)).severity = "critical" ∧
     (detect_anomaly (fun _ => 0) (5/2) baselineSevenTens (29/2)).deviation_percent = 45) :=
  ⟨rfl, c9_end_to_end_scenario (fun _ => 0) rfl⟩

end CloudGuard
